import Mathlib

/-!
Verification of the Plasma wire-protocol message codec
(`cpp/src/plasma/protocol.cc`).

Each C++ `Send*` function builds one flatbuffer message body and hands it to
`PlasmaSend`, which frames it onto the socket; each `Read*` function takes the
received body and writes the decoded fields into its out-parameters.  The
flatbuffers library itself (field storage and retrieval) is third-party and
lossless, so the embedding works at the level of the message bodies: every
`Send*` function is modelled as a Lean function producing a structure whose
fields are exactly the fields the C++ builder stores, and every `Read*`
function consumes such a structure, with out-parameter writes made explicit
(appends take the initial vector contents as an argument, hard `ARROW_CHECK`
aborts become `Option.none`).  Integer fields travel through flatbuffers
unchanged and are modelled as `Int`; byte strings as `List Nat`.

Types declared in headers outside the codec (`ObjectID`, `ObjectTableEntry`,
`ObjectState`, `PlasmaObject`, `ObjectRequest`, `kDigestSize`) are modelled
from the specification, as noted on each definition.
-/

namespace Plasma

/-- Modelled from the spec: the digest width, 20 bytes (`kDigestSize` in
`plasma/common.h`). -/
def kDigestSize : Nat := 20

/-- Modelled from the spec: a fixed-width opaque byte string identifying an
object.  `binary` is the accessor `ObjectID::binary()`; equality is
bytewise. -/
structure ObjectID where
  binary : List Nat
deriving DecidableEq, Repr

/-- Source `ObjectID::from_binary`: rebuild an id from its byte string. -/
def ObjectID.from_binary (s : List Nat) : ObjectID := ⟨s⟩

/-- The protocol error enumeration `fb::PlasmaError` (values used by
`protocol.cc`). -/
inductive PlasmaError where
  | OK
  | ObjectExists
  | ObjectNonexistent
  | OutOfMemory
deriving DecidableEq, Repr

/-- The `arrow::Status` values produced by the codec: an ok status or one of
the plasma error kinds, each carrying its message string. -/
inductive Status where
  | OK
  | PlasmaObjectExists (msg : String)
  | PlasmaObjectNonexistent (msg : String)
  | PlasmaStoreFull (msg : String)
deriving DecidableEq, Repr

/-- Source `PlasmaErrorStatus` (protocol.cc:87-101): map a protocol error code to an
API status. -/
def PlasmaErrorStatus : PlasmaError → Status
  | .OK => .OK
  | .ObjectExists => .PlasmaObjectExists "object already exists in the plasma store"
  | .ObjectNonexistent =>
      .PlasmaObjectNonexistent "object does not exist in the plasma store"
  | .OutOfMemory => .PlasmaStoreFull "object does not fit in the plasma store"

/-! ## Seal messages -/

/-- Body of `PlasmaSealRequest`: the object id bytes and the digest bytes. -/
structure PlasmaSealRequest where
  object_id : List Nat
  digest : List Nat
deriving DecidableEq, Repr

/-- Read `kDigestSize` bytes starting at a caller buffer, modelling a C read
through an `unsigned char*` (bytes past the end of the modelled buffer read
as 0). -/
def digestBytes (buf : List Nat) : List Nat :=
  (List.range kDigestSize).map (fun i => buf.getD i 0)

/-- Source `SendSealRequest` (protocol.cc:213-219): encode the id and exactly
`kDigestSize` digest bytes. -/
def SendSealRequest (object_id : ObjectID) (digest : List Nat) : PlasmaSealRequest :=
  { object_id := object_id.binary, digest := digestBytes digest }

/-- Source `ReadSealRequest` (protocol.cc:221-230): decode the id, check the digest
is exactly `kDigestSize` bytes (`ARROW_CHECK`, modelled as `none` on
failure), and copy the digest out. -/
def ReadSealRequest (msg : PlasmaSealRequest) : Option (ObjectID × List Nat) :=
  if msg.digest.length = kDigestSize then
    some (ObjectID.from_binary msg.object_id, msg.digest.take kDigestSize)
  else
    none

/-! ## Create messages -/

/-- Body of `PlasmaCreateRequest`. -/
structure PlasmaCreateRequest where
  object_id : List Nat
  data_size : Int
  metadata_size : Int
  device_num : Int
deriving DecidableEq, Repr

/-- Source `SendCreateRequest` (protocol.cc:105-111). -/
def SendCreateRequest (object_id : ObjectID) (data_size metadata_size device_num : Int) :
    PlasmaCreateRequest :=
  { object_id := object_id.binary, data_size := data_size,
    metadata_size := metadata_size, device_num := device_num }

/-- Source `ReadCreateRequest` (protocol.cc:113-123): returns
`(object_id, data_size, metadata_size, device_num)`. -/
def ReadCreateRequest (msg : PlasmaCreateRequest) : ObjectID × Int × Int × Int :=
  (ObjectID.from_binary msg.object_id, msg.data_size, msg.metadata_size, msg.device_num)

/-- The flatbuffer struct `PlasmaObjectSpec`. -/
structure PlasmaObjectSpec where
  segment_index : Int
  data_offset : Int
  data_size : Int
  metadata_offset : Int
  metadata_size : Int
  device_num : Int
deriving DecidableEq, Repr, Inhabited

/-- Modelled from the spec: the client-side `PlasmaObject` struct
(`plasma/plasma.h`), holding the location of an object inside a segment. -/
structure PlasmaObject where
  store_fd : Int
  data_offset : Int
  data_size : Int
  metadata_offset : Int
  metadata_size : Int
  device_num : Int
deriving DecidableEq, Repr, Inhabited

/-- The `PlasmaObjectSpec` built from a `PlasmaObject` by the constructor call
in `SendCreateReply` and `SendGetReply`. -/
def specOfObject (o : PlasmaObject) : PlasmaObjectSpec :=
  { segment_index := o.store_fd, data_offset := o.data_offset, data_size := o.data_size,
    metadata_offset := o.metadata_offset, metadata_size := o.metadata_size,
    device_num := o.device_num }

/-- The field-by-field copy of a received `PlasmaObjectSpec` into the
out-parameter `PlasmaObject`, as performed by `ReadCreateReply` and
`ReadGetReply` (`store_fd` is read from `segment_index`). -/
def objectOfSpec (s : PlasmaObjectSpec) : PlasmaObject :=
  { store_fd := s.segment_index, data_offset := s.data_offset, data_size := s.data_size,
    metadata_offset := s.metadata_offset, metadata_size := s.metadata_size,
    device_num := s.device_num }

/-- Body of `PlasmaCreateReply` (host-memory path; the GPU `ipc_handle` field
is compiled out in this build). -/
structure PlasmaCreateReply where
  error : PlasmaError
  plasma_object : PlasmaObjectSpec
  object_id : List Nat
  store_fd : Int
  mmap_size : Int
deriving DecidableEq, Repr

/-- Source `SendCreateReply` (protocol.cc:125-156). -/
def SendCreateReply (object_id : ObjectID) (object : PlasmaObject)
    (error_code : PlasmaError) (mmap_size : Int) : PlasmaCreateReply :=
  { error := error_code, plasma_object := specOfObject object,
    object_id := object_id.binary, store_fd := object.store_fd,
    mmap_size := mmap_size }

/-- Source `ReadCreateReply` (protocol.cc:158-181): `init` is the prior contents of
the caller's `*object` out-parameter; every field of the object, the id, the
`store_fd` and the `mmap_size` are written from the message, and the status
is computed from the message's error code afterwards. -/
def ReadCreateReply (msg : PlasmaCreateReply) (init : PlasmaObject) :
    (ObjectID × PlasmaObject × Int × Int) × Status :=
  let object := { init with store_fd := msg.plasma_object.segment_index,
                            data_offset := msg.plasma_object.data_offset,
                            data_size := msg.plasma_object.data_size,
                            metadata_offset := msg.plasma_object.metadata_offset,
                            metadata_size := msg.plasma_object.metadata_size,
                            device_num := msg.plasma_object.device_num }
  ((ObjectID.from_binary msg.object_id, object, msg.store_fd, msg.mmap_size),
   PlasmaErrorStatus msg.error)

/-! ## Abort, Release, Contains, Connect, Evict, SealReply, Data messages -/

/-- Body of `PlasmaAbortRequest`. -/
structure PlasmaAbortRequest where
  object_id : List Nat
deriving DecidableEq, Repr

/-- Source `SendAbortRequest` (protocol.cc:183-187). -/
def SendAbortRequest (object_id : ObjectID) : PlasmaAbortRequest :=
  { object_id := object_id.binary }

/-- Source `ReadAbortRequest` (protocol.cc:189-195). -/
def ReadAbortRequest (msg : PlasmaAbortRequest) : ObjectID :=
  ObjectID.from_binary msg.object_id

/-- Body of `PlasmaAbortReply`. -/
structure PlasmaAbortReply where
  object_id : List Nat
deriving DecidableEq, Repr

/-- Source `SendAbortReply` (protocol.cc:197-201). -/
def SendAbortReply (object_id : ObjectID) : PlasmaAbortReply :=
  { object_id := object_id.binary }

/-- Source `ReadAbortReply` (protocol.cc:203-209). -/
def ReadAbortReply (msg : PlasmaAbortReply) : ObjectID :=
  ObjectID.from_binary msg.object_id

/-- Body of `PlasmaSealReply`. -/
structure PlasmaSealReply where
  object_id : List Nat
  error : PlasmaError
deriving DecidableEq, Repr

/-- Source `SendSealReply` (protocol.cc:232-237). -/
def SendSealReply (object_id : ObjectID) (error : PlasmaError) : PlasmaSealReply :=
  { object_id := object_id.binary, error := error }

/-- Source `ReadSealReply` (protocol.cc:239-245): decodes the id and converts the
error code to a status. -/
def ReadSealReply (msg : PlasmaSealReply) : ObjectID × Status :=
  (ObjectID.from_binary msg.object_id, PlasmaErrorStatus msg.error)

/-- Body of `PlasmaReleaseRequest`. -/
structure PlasmaReleaseRequest where
  object_id : List Nat
deriving DecidableEq, Repr

/-- Source `SendReleaseRequest` (protocol.cc:249-254). -/
def SendReleaseRequest (object_id : ObjectID) : PlasmaReleaseRequest :=
  { object_id := object_id.binary }

/-- Source `ReadReleaseRequest` (protocol.cc:256-262). -/
def ReadReleaseRequest (msg : PlasmaReleaseRequest) : ObjectID :=
  ObjectID.from_binary msg.object_id

/-- Body of `PlasmaReleaseReply`. -/
structure PlasmaReleaseReply where
  object_id : List Nat
  error : PlasmaError
deriving DecidableEq, Repr

/-- Source `SendReleaseReply` (protocol.cc:264-269). -/
def SendReleaseReply (object_id : ObjectID) (error : PlasmaError) : PlasmaReleaseReply :=
  { object_id := object_id.binary, error := error }

/-- Source `ReadReleaseReply` (protocol.cc:271-277). -/
def ReadReleaseReply (msg : PlasmaReleaseReply) : ObjectID × Status :=
  (ObjectID.from_binary msg.object_id, PlasmaErrorStatus msg.error)

/-- Body of `PlasmaContainsRequest`. -/
structure PlasmaContainsRequest where
  object_id : List Nat
deriving DecidableEq, Repr

/-- Source `SendContainsRequest` (protocol.cc:383-388). -/
def SendContainsRequest (object_id : ObjectID) : PlasmaContainsRequest :=
  { object_id := object_id.binary }

/-- Source `ReadContainsRequest` (protocol.cc:390-396). -/
def ReadContainsRequest (msg : PlasmaContainsRequest) : ObjectID :=
  ObjectID.from_binary msg.object_id

/-- Body of `PlasmaContainsReply`. -/
structure PlasmaContainsReply where
  object_id : List Nat
  has_object : Bool
deriving DecidableEq, Repr

/-- Source `SendContainsReply` (protocol.cc:398-403). -/
def SendContainsReply (object_id : ObjectID) (has_object : Bool) : PlasmaContainsReply :=
  { object_id := object_id.binary, has_object := has_object }

/-- Source `ReadContainsReply` (protocol.cc:405-413). -/
def ReadContainsReply (msg : PlasmaContainsReply) : ObjectID × Bool :=
  (ObjectID.from_binary msg.object_id, msg.has_object)

/-- Body of `PlasmaConnectReply`. -/
structure PlasmaConnectReply where
  memory_capacity : Int
deriving DecidableEq, Repr

/-- Source `SendConnectReply` (protocol.cc:472-476). -/
def SendConnectReply (memory_capacity : Int) : PlasmaConnectReply :=
  { memory_capacity := memory_capacity }

/-- Source `ReadConnectReply` (protocol.cc:478-484). -/
def ReadConnectReply (msg : PlasmaConnectReply) : Int :=
  msg.memory_capacity

/-- Body of `PlasmaEvictRequest`. -/
structure PlasmaEvictRequest where
  num_bytes : Int
deriving DecidableEq, Repr

/-- Source `SendEvictRequest` (protocol.cc:488-492). -/
def SendEvictRequest (num_bytes : Int) : PlasmaEvictRequest :=
  { num_bytes := num_bytes }

/-- Source `ReadEvictRequest` (protocol.cc:494-500). -/
def ReadEvictRequest (msg : PlasmaEvictRequest) : Int :=
  msg.num_bytes

/-- Body of `PlasmaEvictReply`. -/
structure PlasmaEvictReply where
  num_bytes : Int
deriving DecidableEq, Repr

/-- Source `SendEvictReply` (protocol.cc:502-506). -/
def SendEvictReply (num_bytes : Int) : PlasmaEvictReply :=
  { num_bytes := num_bytes }

/-- Source `ReadEvictReply` (protocol.cc:508-514). -/
def ReadEvictReply (msg : PlasmaEvictReply) : Int :=
  msg.num_bytes

/-- Body of `PlasmaDataRequest`. -/
structure PlasmaDataRequest where
  object_id : List Nat
  address : List Nat
  port : Int
deriving DecidableEq, Repr

/-- Source `SendDataRequest` (protocol.cc:704-710): the address is a C string read
with `strlen`, i.e. up to (excluding) the first 0 byte. -/
def SendDataRequest (object_id : ObjectID) (address : List Nat) (port : Int) :
    PlasmaDataRequest :=
  { object_id := object_id.binary,
    address := address.takeWhile (fun b => b != 0), port := port }

/-- Source `ReadDataRequest` (protocol.cc:712-722): the address is duplicated with
`strdup` from the message's C string, i.e. up to the first 0 byte. -/
def ReadDataRequest (msg : PlasmaDataRequest) : ObjectID × List Nat × Int :=
  (ObjectID.from_binary msg.object_id,
   msg.address.takeWhile (fun b => b != 0), msg.port)

/-- Body of `PlasmaDataReply`. -/
structure PlasmaDataReply where
  object_id : List Nat
  object_size : Int
  metadata_size : Int
deriving DecidableEq, Repr

/-- Source `SendDataReply` (protocol.cc:724-730). -/
def SendDataReply (object_id : ObjectID) (object_size metadata_size : Int) :
    PlasmaDataReply :=
  { object_id := object_id.binary, object_size := object_size,
    metadata_size := metadata_size }

/-- Source `ReadDataReply` (protocol.cc:732-741): the `uint64` schema fields are
cast back to `int64`, which composed with the write is the identity on
64-bit values. -/
def ReadDataReply (msg : PlasmaDataReply) : ObjectID × Int × Int :=
  (ObjectID.from_binary msg.object_id, msg.object_size, msg.metadata_size)

/-! ## Get and Fetch messages -/

/-- Source `ToFlatbuffer` (protocol.cc:49-57): encode a vector of object ids as a
vector of their byte strings. -/
def ToFlatbuffer (object_ids : List ObjectID) : List (List Nat) :=
  object_ids.map (fun id => id.binary)

/-- Body of `PlasmaGetRequest`. -/
structure PlasmaGetRequest where
  object_ids : List (List Nat)
  timeout_ms : Int
deriving DecidableEq, Repr

/-- Source `SendGetRequest` (protocol.cc:518-524). -/
def SendGetRequest (object_ids : List ObjectID) (timeout_ms : Int) : PlasmaGetRequest :=
  { object_ids := ToFlatbuffer object_ids, timeout_ms := timeout_ms }

/-- Source `ReadGetRequest` (protocol.cc:526-537): `object_ids` is the prior
contents of the caller's vector; the decoded ids are pushed onto it without
clearing it first. -/
def ReadGetRequest (msg : PlasmaGetRequest) (object_ids : List ObjectID) :
    List ObjectID × Int :=
  (object_ids ++ msg.object_ids.map ObjectID.from_binary, msg.timeout_ms)

/-- Body of `PlasmaFetchRequest`. -/
structure PlasmaFetchRequest where
  object_ids : List (List Nat)
deriving DecidableEq, Repr

/-- Source `SendFetchRequest` (protocol.cc:606-611). -/
def SendFetchRequest (object_ids : List ObjectID) : PlasmaFetchRequest :=
  { object_ids := ToFlatbuffer object_ids }

/-- Source `ReadFetchRequest` (protocol.cc:613-621): pushes the decoded ids onto the
caller's vector without clearing it. -/
def ReadFetchRequest (msg : PlasmaFetchRequest) (object_ids : List ObjectID) :
    List ObjectID :=
  object_ids ++ msg.object_ids.map ObjectID.from_binary

/-- Body of `PlasmaGetReply` (host-memory path; the GPU `handles` vector is
compiled out in this build). -/
structure PlasmaGetReply where
  object_ids : List (List Nat)
  plasma_objects : List PlasmaObjectSpec
  store_fds : List Int
  mmap_sizes : List Int
deriving DecidableEq, Repr

/-- Source `SendGetReply` (protocol.cc:539-566): `plasma_objects` is the store's
id-to-object map; one spec per requested id, in request order, plus the
segment fd and mmap-size vectors verbatim. -/
def SendGetReply (object_ids : List ObjectID) (plasma_objects : ObjectID → PlasmaObject)
    (store_fds : List Int) (mmap_sizes : List Int) : PlasmaGetReply :=
  { object_ids := ToFlatbuffer object_ids,
    plasma_objects := object_ids.map (fun id => specOfObject (plasma_objects id)),
    store_fds := store_fds, mmap_sizes := mmap_sizes }

/-- Source `ReadGetReply` (protocol.cc:568-603): decodes `num_objects` ids and
specs, checks that the fd and mmap-size vectors have equal length
(`ARROW_CHECK`, modelled as `none` on failure), and appends the (fd, size)
pairs onto the caller's vectors `store_fds` and `mmap_sizes`. -/
def ReadGetReply (msg : PlasmaGetReply) (num_objects : Nat)
    (store_fds : List Int) (mmap_sizes : List Int) :
    Option (List ObjectID × List PlasmaObject × List Int × List Int) :=
  let ids := (List.range num_objects).map
    (fun i => ObjectID.from_binary (msg.object_ids.getD i []))
  let objects := (List.range num_objects).map
    (fun i => objectOfSpec (msg.plasma_objects.getD i default))
  if msg.store_fds.length = msg.mmap_sizes.length then
    some (ids, objects, store_fds ++ msg.store_fds, mmap_sizes ++ msg.mmap_sizes)
  else
    none

/-! ## Delete messages -/

/-- Body of `PlasmaDeleteReply`: an explicit count alongside the id and error
vectors. -/
structure PlasmaDeleteReply where
  count : Nat
  object_ids : List (List Nat)
  errors : List PlasmaError
deriving DecidableEq, Repr

/-- Source `SendDeleteReply` (protocol.cc:302-311): `count` is the number of ids;
the error vector is read for exactly `object_ids.size()` elements. -/
def SendDeleteReply (object_ids : List ObjectID) (errors : List PlasmaError) :
    PlasmaDeleteReply :=
  { count := object_ids.length, object_ids := ToFlatbuffer object_ids,
    errors := errors.take object_ids.length }

/-- Source `ToVector` (protocol.cc:70-78): clear the out vector and fill it with
`count` elements produced by the getter. -/
def ToVector (count : Nat) (getter : Nat → α) : List α :=
  (List.range count).map getter

/-- Source `ReadDeleteReply` (protocol.cc:313-329): rebuild the id and error vectors
from `count` message elements (the out vectors are cleared by `ToVector`). -/
def ReadDeleteReply (msg : PlasmaDeleteReply) : List ObjectID × List PlasmaError :=
  (ToVector msg.count (fun i => ObjectID.from_binary (msg.object_ids.getD i [])),
   ToVector msg.count (fun i => msg.errors.getD i .OK))

/-! ## List messages -/

/-- Modelled from the spec: the object lifecycle states (`ObjectState` in
`plasma/common.h`). -/
inductive ObjectState where
  | PLASMA_CREATED
  | PLASMA_SEALED
deriving DecidableEq, Repr

/-- Modelled from the spec: the store-side `ObjectTableEntry`
(`plasma/plasma.h`) restricted to the fields the List codec touches.  The
digest is the entry's 20-byte digest array, held as a byte list. -/
structure ObjectTableEntry where
  state : ObjectState
  data_size : Int
  metadata_size : Int
  ref_count : Int
  create_time : Int
  construct_duration : Int
  digest : List Nat
deriving DecidableEq, Repr

/-- The entry produced by `new ObjectTableEntry()` in `ReadListReply`,
before any field is assigned (indeterminate members modelled as zeroed). -/
def ObjectTableEntry.fresh : ObjectTableEntry :=
  { state := .PLASMA_CREATED, data_size := 0, metadata_size := 0, ref_count := 0,
    create_time := 0, construct_duration := 0,
    digest := List.replicate kDigestSize 0 }

/-- The flatbuffer table `ObjectInfo` carried in a List reply. -/
structure ObjectInfo where
  object_id : List Nat
  data_size : Int
  metadata_size : Int
  ref_count : Int
  create_time : Int
  construct_duration : Int
  digest : List Nat
deriving DecidableEq, Repr

/-- The `ObjectInfo` built for one table entry by `SendListReply`: an empty
digest string for a `PLASMA_CREATED` entry, otherwise the entry's
`kDigestSize` digest bytes. -/
def writeObjectInfo (p : ObjectID × ObjectTableEntry) : ObjectInfo :=
  { object_id := p.1.binary, data_size := p.2.data_size,
    metadata_size := p.2.metadata_size, ref_count := p.2.ref_count,
    create_time := p.2.create_time, construct_duration := p.2.construct_duration,
    digest := if p.2.state = .PLASMA_CREATED then [] else digestBytes p.2.digest }

/-- Source `SendListReply` (protocol.cc:425-441): one `ObjectInfo` per table entry,
in table iteration order. -/
def SendListReply (objects : List (ObjectID × ObjectTableEntry)) : List ObjectInfo :=
  objects.map writeObjectInfo

/-- The `ObjectTableEntry` rebuilt from one received `ObjectInfo` by
`ReadListReply`: sizes, refcount and times are copied, the state is
`PLASMA_CREATED` exactly when the received digest is empty, and the digest
member of the fresh entry is never assigned. -/
def readObjectInfo (m : ObjectInfo) : ObjectTableEntry :=
  { ObjectTableEntry.fresh with
    data_size := m.data_size, metadata_size := m.metadata_size,
    ref_count := m.ref_count, create_time := m.create_time,
    construct_duration := m.construct_duration,
    state := if m.digest.length = 0 then .PLASMA_CREATED else .PLASMA_SEALED }

/-- The map assignment `(*objects)[object_id] = entry`: replace the value if
the key is present, append otherwise. -/
def tableSet (m : List (ObjectID × ObjectTableEntry)) (k : ObjectID)
    (v : ObjectTableEntry) : List (ObjectID × ObjectTableEntry) :=
  if m.any (fun p => decide (p.1 = k)) then
    m.map (fun p => if p.1 = k then (k, v) else p)
  else
    m ++ [(k, v)]

/-- Source `ReadListReply` (protocol.cc:443-460): for each received `ObjectInfo`,
build a fresh entry and store it in the caller's table under the decoded
id. -/
def ReadListReply (msgs : List ObjectInfo) (objects : List (ObjectID × ObjectTableEntry)) :
    List (ObjectID × ObjectTableEntry) :=
  msgs.foldl
    (fun acc m => tableSet acc (ObjectID.from_binary m.object_id) (readObjectInfo m))
    objects

/-! ## Wait messages -/

/-- Source `ObjectLocation` / `fb::ObjectStatus`: the two enumerations are
value-identical by the `PLASMA_CHECK_ENUM` assertions (protocol.cc:45-47),
so both are modelled by this one type and the casts are identities. -/
inductive ObjectLocation where
  | Local
  | Remote
  | Nonexistent
deriving DecidableEq, Repr, Inhabited

/-- Modelled from the spec: a client's per-object wait request
(`ObjectRequest` in `plasma/common.h`): the id, the requested condition, and
the reported location. -/
structure ObjectRequest where
  object_id : ObjectID
  type : Int
  location : ObjectLocation
deriving DecidableEq, Repr

/-- The flatbuffer table `ObjectReply` carried in a Wait reply. -/
structure ObjectReply where
  object_id : List Nat
  status : ObjectLocation
deriving DecidableEq, Repr, Inhabited

/-- Body of `PlasmaWaitReply`. -/
structure PlasmaWaitReply where
  object_requests : List ObjectReply
  num_ready_objects : Nat
deriving DecidableEq, Repr

/-- Source `SendWaitReply` (protocol.cc:661-676): one `ObjectReply` is built per map
entry in iteration order, but `CreateVector(data, num_ready_objects)` puts
only the first `num_ready_objects` of them into the message. -/
def SendWaitReply (object_requests : List (ObjectID × ObjectRequest))
    (num_ready_objects : Nat) : PlasmaWaitReply :=
  { object_requests :=
      (object_requests.map (fun entry =>
        ObjectReply.mk entry.2.object_id.binary entry.2.location)).take num_ready_objects,
    num_ready_objects := num_ready_objects }

/-- The per-record decode in `ReadWaitReply`: the id from its byte string
and the status cast to an `ObjectLocation`. -/
def readObjectReply (r : ObjectReply) : ObjectID × ObjectLocation :=
  (ObjectID.from_binary r.object_id, r.status)

/-- Source `ReadWaitReply` (protocol.cc:678-692): read `num_ready_objects` from the
message and decode exactly that many (id, location) pairs into the caller's
array. -/
def ReadWaitReply (msg : PlasmaWaitReply) : List (ObjectID × ObjectLocation) × Nat :=
  ((List.range msg.num_ready_objects).map
      (fun i => readObjectReply (msg.object_requests.getD i default)),
   msg.num_ready_objects)

/-- A one-entry object table holding a sealed object whose digest bytes are
all 1, used as a concrete probe for the List codec. -/
def sealedProbe : ObjectID × ObjectTableEntry :=
  (⟨List.replicate kDigestSize 3⟩,
   { state := .PLASMA_SEALED, data_size := 1, metadata_size := 0, ref_count := 0,
     create_time := 2, construct_duration := 1,
     digest := List.replicate kDigestSize 1 })

/-- A concrete two-entry object table (one created, one sealed entry). -/
def sampleTable : List (ObjectID × ObjectTableEntry) :=
  [(⟨List.replicate kDigestSize 4⟩,
    { state := .PLASMA_CREATED, data_size := 16, metadata_size := 4, ref_count := 1,
      create_time := 100, construct_duration := 0,
      digest := List.replicate kDigestSize 0 }),
   (⟨List.replicate kDigestSize 5⟩,
    { state := .PLASMA_SEALED, data_size := 8, metadata_size := 0, ref_count := 0,
      create_time := 50, construct_duration := 7,
      digest := List.replicate kDigestSize 9 })]

/-! ## General helper lemmas -/

theorem digestBytes_length (buf : List Nat) : (digestBytes buf).length = kDigestSize := by
  simp [digestBytes]

theorem range_map_getD (l : List α) (d : α) (f : α → β) :
    (List.range l.length).map (fun i => f (l.getD i d)) = l.map f := by
  induction l with
  | nil => simp
  | cons a t ih =>
    rw [List.length_cons, List.range_succ_eq_map, List.map_cons, List.map_map]
    simp only [Function.comp_def, List.getD_cons_succ, List.getD_cons_zero]
    rw [ih, List.map_cons]

theorem digestBytes_eq_self (buf : List Nat) (h : buf.length = kDigestSize) :
    digestBytes buf = buf := by
  have := range_map_getD buf 0 id
  rw [h] at this
  simpa [digestBytes] using this

@[simp] theorem from_binary_binary (x : ObjectID) : ObjectID.from_binary x.binary = x := rfl

theorem range_map_getD_map (l : List α) (g : α → γ) (d : γ) (f : γ → β) :
    (List.range l.length).map (fun i => f ((l.map g).getD i d)) = l.map (fun a => f (g a)) := by
  have h := range_map_getD (l.map g) d f
  rw [List.length_map] at h
  rw [h, List.map_map]
  rfl

theorem takeWhile_ne_zero (l : List Nat) (h : 0 ∉ l) :
    l.takeWhile (fun b => b != 0) = l := by
  induction l with
  | nil => rfl
  | cons a t ih =>
    rw [List.mem_cons, not_or] at h
    have ha : (a != 0) = true := by
      simp only [bne_iff_ne, ne_eq]
      exact fun e => h.1 e.symm
    rw [List.takeWhile_cons, if_pos ha, ih h.2]

theorem append_eq_self_iff_nil (l l2 : List α) : l ++ l2 = l2 ↔ l = [] := by
  constructor
  · intro h
    have hl := congrArg List.length h
    simp only [List.length_append] at hl
    exact List.eq_nil_of_length_eq_zero (by omega)
  · intro h
    simp [h]

theorem objectOfSpec_specOfObject (o : PlasmaObject) :
    objectOfSpec (specOfObject o) = o := rfl

theorem tableSet_of_not_mem (m : List (ObjectID × ObjectTableEntry)) (k : ObjectID)
    (v : ObjectTableEntry) (h : ∀ p ∈ m, p.1 ≠ k) : tableSet m k v = m ++ [(k, v)] := by
  rw [tableSet, if_neg]
  intro hc
  rw [List.any_eq_true] at hc
  obtain ⟨p, hp, he⟩ := hc
  exact h p hp (by simpa using he)

theorem mem_tableSet (m : List (ObjectID × ObjectTableEntry)) (k : ObjectID)
    (v : ObjectTableEntry) (q : ObjectID × ObjectTableEntry) (hq : q ∈ tableSet m k v) :
    q ∈ m ∨ q = (k, v) := by
  rw [tableSet] at hq
  split at hq
  · rw [List.mem_map] at hq
    obtain ⟨p, hp, he⟩ := hq
    by_cases hk : p.1 = k
    · rw [if_pos hk] at he
      exact Or.inr he.symm
    · rw [if_neg hk] at he
      exact Or.inl (he ▸ hp)
  · rw [List.mem_append, List.mem_singleton] at hq
    exact hq

theorem readListReply_append (msgs : List ObjectInfo)
    (acc : List (ObjectID × ObjectTableEntry))
    (hdisj : ∀ m ∈ msgs, ∀ p ∈ acc, p.1 ≠ ObjectID.from_binary m.object_id)
    (hnd : (msgs.map (fun m => ObjectID.from_binary m.object_id)).Nodup) :
    ReadListReply msgs acc =
      acc ++ msgs.map (fun m => (ObjectID.from_binary m.object_id, readObjectInfo m)) := by
  induction msgs generalizing acc with
  | nil => simp [ReadListReply]
  | cons m t ih =>
    rw [List.map_cons, List.nodup_cons] at hnd
    have hstep : tableSet acc (ObjectID.from_binary m.object_id) (readObjectInfo m) =
        acc ++ [(ObjectID.from_binary m.object_id, readObjectInfo m)] :=
      tableSet_of_not_mem _ _ _ (fun p hp => hdisj m (List.mem_cons_self m t) p hp)
    have hrec : ReadListReply (m :: t) acc =
        ReadListReply t (acc ++ [(ObjectID.from_binary m.object_id, readObjectInfo m)]) := by
      rw [ReadListReply, List.foldl_cons, hstep]
      rfl
    rw [hrec, ih _ ?_ hnd.2]
    · simp
    · intro m2 hm2 p hp
      rw [List.mem_append, List.mem_singleton] at hp
      rcases hp with hp | hp
      · exact hdisj m2 (List.mem_cons_of_mem m hm2) p hp
      · rw [hp]
        intro he
        apply hnd.1
        have he2 : ObjectID.from_binary m.object_id = ObjectID.from_binary m2.object_id := he
        rw [he2]
        exact List.mem_map_of_mem _ hm2

theorem readListReply_digest_fresh (msgs : List ObjectInfo)
    (acc : List (ObjectID × ObjectTableEntry))
    (hacc : ∀ p ∈ acc, p.2.digest = List.replicate kDigestSize 0) :
    ∀ q ∈ ReadListReply msgs acc, q.2.digest = List.replicate kDigestSize 0 := by
  induction msgs generalizing acc with
  | nil => exact hacc
  | cons m t ih =>
    intro q hq
    have hrec : ReadListReply (m :: t) acc =
        ReadListReply t (tableSet acc (ObjectID.from_binary m.object_id) (readObjectInfo m)) :=
      rfl
    rw [hrec] at hq
    refine ih _ ?_ q hq
    intro p hp
    rcases mem_tableSet _ _ _ p hp with hp2 | hp2
    · exact hacc p hp2
    · rw [hp2]
      rfl

theorem read_write_objectInfo (p : ObjectID × ObjectTableEntry) :
    readObjectInfo (writeObjectInfo p) =
      { p.2 with digest := List.replicate kDigestSize 0 } := by
  cases hs : p.2.state <;>
    simp [readObjectInfo, writeObjectInfo, ObjectTableEntry.fresh, hs, digestBytes_length,
      kDigestSize]

theorem range_map_getD_take (l : List γ) (n : Nat) (h : n ≤ l.length) (d : γ) (f : γ → β) :
    (List.range n).map (fun i => f ((l.take n).getD i d)) = (l.map f).take n := by
  have h1 : (l.take n).length = n := by rw [List.length_take]; omega
  have h2 := range_map_getD (l.take n) d f
  rw [h1] at h2
  rw [h2, List.map_take]

/-! ## Claim theorems (first group) -/

/-- Claim C2: `PlasmaErrorStatus` maps each of the four protocol error codes
to a distinct API error kind — `OK` to the ok status, `ObjectExists` to
`PlasmaObjectExists`, `ObjectNonexistent` to `PlasmaObjectNonexistent`,
`OutOfMemory` to `PlasmaStoreFull` — and the mapping is injective, so every
reply encoding one of them maps back to exactly one API error kind. -/
theorem plasmaErrorStatus_distinct :
    PlasmaErrorStatus .OK = .OK ∧
    (∃ m, PlasmaErrorStatus .ObjectExists = .PlasmaObjectExists m) ∧
    (∃ m, PlasmaErrorStatus .ObjectNonexistent = .PlasmaObjectNonexistent m) ∧
    (∃ m, PlasmaErrorStatus .OutOfMemory = .PlasmaStoreFull m) ∧
    Function.Injective PlasmaErrorStatus := by
  refine ⟨rfl, ⟨_, rfl⟩, ⟨_, rfl⟩, ⟨_, rfl⟩, ?_⟩
  intro a b h
  cases a <;> cases b <;> simp_all [PlasmaErrorStatus]

/-- Claim C6: `SendSealRequest` encodes exactly `kDigestSize` (20) digest
bytes, and on every buffer it produces the size check in `ReadSealRequest`
succeeds, recovering the object id and the 20 digest bytes unchanged; the
failure branch is unreachable.  When the caller's digest buffer holds exactly
20 bytes, the recovered bytes are that buffer. -/
theorem sealRequest_digest_roundtrip (object_id : ObjectID) (digest : List Nat) :
    (SendSealRequest object_id digest).digest.length = kDigestSize ∧
    ReadSealRequest (SendSealRequest object_id digest) =
      some (object_id, digestBytes digest) ∧
    (digest.length = kDigestSize →
      ReadSealRequest (SendSealRequest object_id digest) = some (object_id, digest)) := by
  refine ⟨digestBytes_length digest, ?_, ?_⟩
  · simp [ReadSealRequest, SendSealRequest, digestBytes_length,
      List.take_of_length_le (le_of_eq (digestBytes_length digest)),
      ObjectID.from_binary]
  · intro h
    have h2 := digestBytes_eq_self digest h
    simp [ReadSealRequest, SendSealRequest, h2, h,
      List.take_of_length_le (le_of_eq h), ObjectID.from_binary]

/-- Witness for C6's conditional part at a concrete 20-byte digest. -/
theorem sealRequest_digest_roundtrip_witness :
    (List.replicate 20 7 : List Nat).length = kDigestSize ∧
    ReadSealRequest (SendSealRequest ⟨List.replicate 20 1⟩ (List.replicate 20 7)) =
      some (⟨List.replicate 20 1⟩, List.replicate 20 7) :=
  ⟨by decide,
    (sealRequest_digest_roundtrip ⟨List.replicate 20 1⟩ (List.replicate 20 7)).2.2
      (by decide)⟩

/-- Claim C1: decoding the body produced by each Send function recovers the
original message: Create requests preserve the object id, data size,
metadata size and device number; Get requests preserve the id vector in
order and the timeout; Evict, Connect, Contains, Abort, Release, Seal and
Data messages preserve their listed fields (the Data address is a C string,
so it must contain no 0 byte; the Seal digest buffer holds `kDigestSize`
bytes). -/
theorem message_roundtrips
    (object_id : ObjectID) (data_size metadata_size device_num : Int)
    (ids : List ObjectID) (timeout_ms : Int)
    (num_bytes num_bytes2 memory_capacity : Int) (has_object : Bool)
    (error : PlasmaError) (digest : List Nat) (address : List Nat) (port : Int)
    (object_size msize : Int)
    (hdigest : digest.length = kDigestSize) (haddr : 0 ∉ address) :
    ReadCreateRequest (SendCreateRequest object_id data_size metadata_size device_num)
      = (object_id, data_size, metadata_size, device_num) ∧
    ReadGetRequest (SendGetRequest ids timeout_ms) [] = (ids, timeout_ms) ∧
    ReadEvictRequest (SendEvictRequest num_bytes) = num_bytes ∧
    ReadEvictReply (SendEvictReply num_bytes2) = num_bytes2 ∧
    ReadConnectReply (SendConnectReply memory_capacity) = memory_capacity ∧
    ReadContainsRequest (SendContainsRequest object_id) = object_id ∧
    ReadContainsReply (SendContainsReply object_id has_object) = (object_id, has_object) ∧
    ReadAbortRequest (SendAbortRequest object_id) = object_id ∧
    ReadAbortReply (SendAbortReply object_id) = object_id ∧
    ReadReleaseRequest (SendReleaseRequest object_id) = object_id ∧
    ReadReleaseReply (SendReleaseReply object_id error)
      = (object_id, PlasmaErrorStatus error) ∧
    ReadSealRequest (SendSealRequest object_id digest) = some (object_id, digest) ∧
    ReadSealReply (SendSealReply object_id error) = (object_id, PlasmaErrorStatus error) ∧
    ReadDataRequest (SendDataRequest object_id address port)
      = (object_id, address, port) ∧
    ReadDataReply (SendDataReply object_id object_size msize)
      = (object_id, object_size, msize) := by
  refine ⟨rfl, ?_, rfl, rfl, rfl, rfl, rfl, rfl, rfl, rfl, rfl, ?_, rfl, ?_, rfl⟩
  · simp [ReadGetRequest, SendGetRequest, ToFlatbuffer, List.map_map, Function.comp_def]
  · have h2 := digestBytes_eq_self digest hdigest
    simp [ReadSealRequest, SendSealRequest, h2, hdigest,
      List.take_of_length_le (le_of_eq hdigest), ObjectID.from_binary]
  · simp [ReadDataRequest, SendDataRequest, takeWhile_ne_zero address haddr]

/-- Witness for C1 at concrete inputs, discharging the digest-length and
NUL-free-address hypotheses. -/
theorem message_roundtrips_witness :
    (List.replicate 20 3 : List Nat).length = kDigestSize ∧
    (0 : Nat) ∉ ([104, 105] : List Nat) ∧
    ReadSealRequest (SendSealRequest ⟨List.replicate 20 9⟩ (List.replicate 20 3))
      = some (⟨List.replicate 20 9⟩, List.replicate 20 3) ∧
    ReadDataRequest (SendDataRequest ⟨List.replicate 20 9⟩ [104, 105] 80)
      = (⟨List.replicate 20 9⟩, [104, 105], 80) := by
  have h := message_roundtrips ⟨List.replicate 20 9⟩ 1 2 0 [] 0 0 0 0 true .OK
    (List.replicate 20 3) [104, 105] 80 5 6 (by decide) (by decide)
  exact ⟨by decide, by decide,
    h.2.2.2.2.2.2.2.2.2.2.2.1,
    h.2.2.2.2.2.2.2.2.2.2.2.2.2.1⟩

/-- Claim C3 counterexample: for a table holding one sealed entry whose
digest bytes are all 1, the entry reconstructed by `ReadListReply` from the
`SendListReply` reply does not carry the original digest — `ReadListReply`
never assigns the digest member, so the claim that decoding yields an entry
whose digest equals the original fails. -/
theorem listReply_digest_counterexample :
    (ReadListReply (SendListReply [sealedProbe]) []).map (fun q => q.2.digest)
      ≠ [sealedProbe.2.digest] := by decide

/-- Claim C3 (amended): the List reply message carries the stored digest of
every sealed entry — `SendListReply` writes the entry's `kDigestSize` digest
bytes into its `ObjectInfo` — but `ReadListReply` does not copy the digest
into the entries it reconstructs: every entry it produces keeps the fresh
(unassigned) digest. -/
theorem listReply_digest_in_message (objects : List (ObjectID × ObjectTableEntry))
    (p : ObjectID × ObjectTableEntry) (hp : p ∈ objects)
    (hs : p.2.state = .PLASMA_SEALED) :
    writeObjectInfo p ∈ SendListReply objects ∧
    (writeObjectInfo p).digest = digestBytes p.2.digest ∧
    (writeObjectInfo p).object_id = p.1.binary ∧
    ∀ msgs, ∀ q ∈ ReadListReply msgs ([] : List (ObjectID × ObjectTableEntry)),
      q.2.digest = List.replicate kDigestSize 0 := by
  refine ⟨List.mem_map_of_mem _ hp, ?_, rfl, ?_⟩
  · simp [writeObjectInfo, hs]
  · intro msgs q hq
    exact readListReply_digest_fresh msgs [] (by intro p2 hp2; cases hp2) q hq

/-- Witness for the amended C3 at the concrete one-entry sealed table. -/
theorem listReply_digest_in_message_witness :
    sealedProbe ∈ [sealedProbe] ∧ sealedProbe.2.state = .PLASMA_SEALED ∧
    (writeObjectInfo sealedProbe).digest = digestBytes sealedProbe.2.digest :=
  ⟨by decide, by decide,
   (listReply_digest_in_message [sealedProbe] sealedProbe (by decide) (by decide)).2.1⟩

/-- Claim C4: in the List reply an empty digest encodes exactly the Created
state: `SendListReply` writes an empty digest for an entry iff its state is
`PLASMA_CREATED`, `ReadListReply` decodes `PLASMA_CREATED` iff the received
digest is empty, and (for a table with distinct ids, as an `ObjectTable`
always has) the round trip preserves every entry's state, data_size,
metadata_size, ref_count, create_time and construct_duration — everything
except the digest member, which stays fresh. -/
theorem listReply_state_roundtrip (objects : List (ObjectID × ObjectTableEntry))
    (hnd : (objects.map Prod.fst).Nodup) :
    (∀ p ∈ objects, ((writeObjectInfo p).digest = [] ↔ p.2.state = .PLASMA_CREATED)) ∧
    (∀ m : ObjectInfo, ((readObjectInfo m).state = .PLASMA_CREATED ↔ m.digest = [])) ∧
    ReadListReply (SendListReply objects) [] =
      objects.map (fun p => (p.1, { p.2 with digest := List.replicate kDigestSize 0 })) := by
  refine ⟨?_, ?_, ?_⟩
  · intro p hp
    cases hs : p.2.state with
    | PLASMA_CREATED => simp [writeObjectInfo, hs]
    | PLASMA_SEALED =>
      simp only [writeObjectInfo, hs]
      simp only [reduceCtorEq, if_false]
      constructor
      · intro h
        have hl := digestBytes_length p.2.digest
        rw [h] at hl
        simp [kDigestSize] at hl
      · intro h
        cases h
  · intro m
    by_cases h : m.digest.length = 0
    · simp [readObjectInfo, h, List.length_eq_zero.mp h]
    · have hne : m.digest ≠ [] := by
        intro e
        rw [e] at h
        exact h rfl
      simp [readObjectInfo, h, hne]
  · have hmap : (SendListReply objects).map (fun m => ObjectID.from_binary m.object_id)
        = objects.map Prod.fst := by
      simp [SendListReply, List.map_map, Function.comp_def, writeObjectInfo]
    rw [readListReply_append _ _ (by intro m hm p hp; cases hp) (by rw [hmap]; exact hnd)]
    rw [List.nil_append, SendListReply, List.map_map]
    refine List.map_congr_left ?_
    intro p _
    show (ObjectID.from_binary (writeObjectInfo p).object_id, readObjectInfo (writeObjectInfo p))
      = (p.1, { p.2 with digest := List.replicate kDigestSize 0 })
    rw [read_write_objectInfo p]
    rfl

/-- Witness for C4 at the concrete two-entry table. -/
theorem listReply_state_roundtrip_witness :
    (sampleTable.map Prod.fst).Nodup ∧
    ReadListReply (SendListReply sampleTable) [] =
      sampleTable.map (fun p => (p.1, { p.2 with digest := List.replicate kDigestSize 0 })) :=
  ⟨by decide, (listReply_state_roundtrip sampleTable (by decide)).2.2⟩

/-- Claim C5: the Delete reply carries per-id errors of the same length and
order as the ids: for vectors of equal length (as `SendDeleteReply`
requires), `ReadDeleteReply` applied to the produced reply returns the id
vector and the error vector exactly as sent. -/
theorem deleteReply_roundtrip (object_ids : List ObjectID) (errors : List PlasmaError)
    (h : object_ids.length = errors.length) :
    ReadDeleteReply (SendDeleteReply object_ids errors) = (object_ids, errors) := by
  simp only [ReadDeleteReply, SendDeleteReply, ToVector, ToFlatbuffer]
  rw [Prod.mk.injEq]
  constructor
  · have h1 := range_map_getD_map object_ids (fun id => id.binary) ([] : List Nat)
      ObjectID.from_binary
    rw [h1]
    simp
  · rw [h, List.take_length]
    have h2 := range_map_getD errors PlasmaError.OK (fun e => e)
    simpa using h2

/-- Witness for C5 at concrete equal-length vectors. -/
theorem deleteReply_roundtrip_witness :
    ([⟨List.replicate 20 1⟩, ⟨List.replicate 20 2⟩] : List ObjectID).length
      = ([.OK, .ObjectNonexistent] : List PlasmaError).length ∧
    ReadDeleteReply (SendDeleteReply [⟨List.replicate 20 1⟩, ⟨List.replicate 20 2⟩]
        [.OK, .ObjectNonexistent])
      = ([⟨List.replicate 20 1⟩, ⟨List.replicate 20 2⟩], [.OK, .ObjectNonexistent]) :=
  ⟨by decide,
   deleteReply_roundtrip [⟨List.replicate 20 1⟩, ⟨List.replicate 20 2⟩]
     [.OK, .ObjectNonexistent] (by decide)⟩

/-- Claim C7: in every Get reply built by `SendGetReply` from fd and
mmap-size vectors of equal length, the equal-size check in `ReadGetReply`
succeeds (its failure branch is unreachable) and the decoder appends exactly
the sent (fd, size) pairs, in order, onto the caller's vectors; the ids and
object specs decode back to the sent values as well. -/
theorem getReply_fds_roundtrip (object_ids : List ObjectID)
    (plasma_objects : ObjectID → PlasmaObject)
    (store_fds mmap_sizes : List Int) (init_fds init_sizes : List Int)
    (h : store_fds.length = mmap_sizes.length) :
    ReadGetReply (SendGetReply object_ids plasma_objects store_fds mmap_sizes)
        object_ids.length init_fds init_sizes =
      some (object_ids, object_ids.map plasma_objects,
            init_fds ++ store_fds, init_sizes ++ mmap_sizes) := by
  have hids := range_map_getD_map object_ids (fun id => id.binary) ([] : List Nat)
    ObjectID.from_binary
  have hobjs := range_map_getD_map object_ids
    (fun id => specOfObject (plasma_objects id)) default objectOfSpec
  simp only [ReadGetReply, SendGetReply, ToFlatbuffer]
  rw [if_pos h, hids, hobjs]
  simp [objectOfSpec_specOfObject]

/-- Witness for C7 at concrete equal-length fd and size vectors. -/
theorem getReply_fds_roundtrip_witness :
    ([3, 4] : List Int).length = ([4096, 8192] : List Int).length ∧
    ReadGetReply (SendGetReply [⟨List.replicate 20 6⟩] (fun _ => default) [3, 4]
        [4096, 8192]) 1 [9] [512]
      = some ([⟨List.replicate 20 6⟩], [default], [9, 3, 4], [512, 4096, 8192]) :=
  ⟨by decide,
   getReply_fds_roundtrip [⟨List.replicate 20 6⟩] (fun _ => default) [3, 4]
     [4096, 8192] [9] [512] (by decide)⟩

/-- Claim C8: `ReadCreateReply` writes every out-parameter — the object id,
all six `PlasmaObjectSpec` fields of the object, `store_fd` and `mmap_size`
— from the message and only then computes the status from the error code, so
the outputs are identical for any prior contents of the caller's object and
are overwritten even when the reply carries a non-OK error. -/
theorem readCreateReply_overwrites (msg : PlasmaCreateReply) (init init2 : PlasmaObject) :
    ReadCreateReply msg init = ReadCreateReply msg init2 ∧
    ReadCreateReply msg init =
      ((ObjectID.from_binary msg.object_id, objectOfSpec msg.plasma_object,
        msg.store_fd, msg.mmap_size),
       PlasmaErrorStatus msg.error) :=
  ⟨rfl, rfl⟩

/-- Claim C9: `ReadGetRequest` appends the decoded ids to the caller's
vector without clearing it: the result is the initial contents followed by
the sent ids (and the timeout), so the ids are recovered exactly only when
the initial vector is empty; `ReadFetchRequest` appends in the same way. -/
theorem readGetRequest_appends (ids : List ObjectID) (timeout_ms : Int)
    (init : List ObjectID) (fids finit : List ObjectID) :
    ReadGetRequest (SendGetRequest ids timeout_ms) init = (init ++ ids, timeout_ms) ∧
    (init ++ ids = ids ↔ init = []) ∧
    ReadFetchRequest (SendFetchRequest fids) finit = finit ++ fids := by
  refine ⟨?_, append_eq_self_iff_nil init ids, ?_⟩
  · simp [ReadGetRequest, SendGetRequest, ToFlatbuffer, List.map_map, Function.comp_def]
  · simp [ReadFetchRequest, SendFetchRequest, ToFlatbuffer, List.map_map,
      Function.comp_def]

/-- Claim C10: the Wait reply encoded by `SendWaitReply` contains exactly
`num_ready_objects` records — map entries beyond the first
`num_ready_objects` in iteration order are omitted (reading past the built
vector would be out of bounds, hence the bound hypothesis) — `ReadWaitReply`
decodes exactly that many records and returns that count, and every decoded
(id, location) pair comes from an entry of the encoded map. -/
theorem waitReply_ready_count (object_requests : List (ObjectID × ObjectRequest))
    (num_ready_objects : Nat) (h : num_ready_objects ≤ object_requests.length) :
    (SendWaitReply object_requests num_ready_objects).object_requests.length
      = num_ready_objects ∧
    (ReadWaitReply (SendWaitReply object_requests num_ready_objects)).2
      = num_ready_objects ∧
    (ReadWaitReply (SendWaitReply object_requests num_ready_objects)).1 =
      (object_requests.map (fun entry => (entry.2.object_id, entry.2.location))).take
        num_ready_objects ∧
    ∀ q ∈ (ReadWaitReply (SendWaitReply object_requests num_ready_objects)).1,
      ∃ entry ∈ object_requests, q = (entry.2.object_id, entry.2.location) := by
  have hlen : num_ready_objects ≤ (object_requests.map (fun entry =>
      ObjectReply.mk entry.2.object_id.binary entry.2.location)).length := by
    rw [List.length_map]
    exact h
  have hdec : (ReadWaitReply (SendWaitReply object_requests num_ready_objects)).1 =
      (object_requests.map (fun entry => (entry.2.object_id, entry.2.location))).take
        num_ready_objects := by
    simp only [ReadWaitReply, SendWaitReply]
    rw [range_map_getD_take _ _ hlen default readObjectReply, List.map_map]
    rfl
  refine ⟨?_, rfl, hdec, ?_⟩
  · simp only [SendWaitReply, List.length_take, List.length_map]
    omega
  · intro q hq
    rw [hdec] at hq
    have hq2 := List.take_subset _ _ hq
    rw [List.mem_map] at hq2
    obtain ⟨entry, he, hq3⟩ := hq2
    exact ⟨entry, he, hq3.symm⟩

/-- Witness for C10 with a two-entry map and one ready object. -/
theorem waitReply_ready_count_witness :
    (1 ≤ ([(⟨List.replicate 20 1⟩, ⟨⟨List.replicate 20 1⟩, 0, .Local⟩),
          (⟨List.replicate 20 2⟩, ⟨⟨List.replicate 20 2⟩, 0, .Nonexistent⟩)] :
        List (ObjectID × ObjectRequest)).length) ∧
    (SendWaitReply [(⟨List.replicate 20 1⟩, ⟨⟨List.replicate 20 1⟩, 0, .Local⟩),
        (⟨List.replicate 20 2⟩, ⟨⟨List.replicate 20 2⟩, 0, .Nonexistent⟩)]
      1).object_requests.length = 1 :=
  ⟨by decide,
   (waitReply_ready_count
     [(⟨List.replicate 20 1⟩, ⟨⟨List.replicate 20 1⟩, 0, .Local⟩),
      (⟨List.replicate 20 2⟩, ⟨⟨List.replicate 20 2⟩, 0, .Nonexistent⟩)]
     1 (by decide)).1⟩

/-- Witness for C2, instantiating the injectivity of the error mapping. -/
theorem plasmaErrorStatus_distinct_witness :
    PlasmaErrorStatus .OK = .OK :=
  plasmaErrorStatus_distinct.1

/-- Witness for C9 at a concrete non-empty initial vector. -/
theorem readGetRequest_appends_witness :
    ReadGetRequest (SendGetRequest [⟨List.replicate 20 8⟩] 250) [⟨List.replicate 20 7⟩]
      = ([⟨List.replicate 20 7⟩, ⟨List.replicate 20 8⟩], 250) :=
  (readGetRequest_appends [⟨List.replicate 20 8⟩] 250 [⟨List.replicate 20 7⟩] [] []).1

end Plasma
